import Mathlib

/-!
Shallow embedding of `src/main.rs` from `UseBatimus/ssh-action-rsync`.

The program is a single linear pipeline:
prompt for a key name → ensure `~/.ssh` exists → run `ssh-keygen` →
append the public key to `~/.ssh/authorized_keys` → print the private key.

The filesystem is modelled as a partial map from (home-expanded) path
strings to file contents plus a set of existing directories.  The external
`ssh-keygen` process is modelled by an oracle (`KeygenBehavior`) describing
whether the launch succeeded, the exit status, the captured stderr text and
the contents it wrote to the two key files.  The system state also records
two observation-only logs that do not influence control flow: the pipeline
steps that were entered (`trace`) and the external commands that were
spawned with their argument lists (`spawned`).
-/

namespace SshSetup

/-- One pipeline step of the run, used only for the observation trace. -/
inductive Step where
  | input
  | dirAssurance
  | keyGeneration
  | enrollment
  | disclosure
deriving DecidableEq, BEq

/-- Embeds Rust `char::is_whitespace` (the Unicode White_Space property),
which `str::trim` strips from both ends. -/
def isRustWhitespace (c : Char) : Bool :=
  let n := c.toNat
  (0x09 ≤ n && n ≤ 0x0D) || n == 0x20 || n == 0x85 || n == 0xA0 ||
  n == 0x1680 || (0x2000 ≤ n && n ≤ 0x200A) || n == 0x2028 || n == 0x2029 ||
  n == 0x202F || n == 0x205F || n == 0x3000

/-- Embeds Rust `str::trim`: strip whitespace from both ends. -/
def rustTrim (s : String) : String :=
  String.mk (((s.data.dropWhile isRustWhitespace).reverse.dropWhile
    isRustWhitespace).reverse)

/-- Embeds `shellexpand::tilde`: a leading `~` segment (alone, or followed
by `/`) is replaced by the home directory; anything else is returned
unchanged. -/
def tilde (home path : String) : String :=
  match path.data with
  | ['~'] => home
  | '~' :: '/' :: rest => home ++ String.mk ('/' :: rest)
  | _ => path

/-- `const SSH_DIR: &str = "~/.ssh";` (src/main.rs line 9). -/
def SSH_DIR : String := "~/.ssh"

/-- `const AUTHORIZED_KEYS_PATH` (src/main.rs line 13). -/
def AUTHORIZED_KEYS_PATH : String := "~/.ssh/authorized_keys"

/-- `let key_name = if key_name.is_empty() { "github-actions" } else { key_name }`
applied to the trimmed input line (src/main.rs lines 34-39). -/
def resolveKeyName (line : String) : String :=
  let key_name := rustTrim line
  if key_name = "" then "github-actions" else key_name

/-- `format!("~/.ssh/{}", key_name)` (src/main.rs line 42). -/
def private_key_path (key_name : String) : String :=
  "~/.ssh/" ++ key_name

/-- `format!("~/.ssh/{}.pub", key_name)` (src/main.rs line 43). -/
def public_key_path (key_name : String) : String :=
  "~/.ssh/" ++ key_name ++ ".pub"

/-- System state: files (by expanded path), directories, accumulated
standard output, and the two observation logs. -/
structure Sys where
  files : String → Option String
  dirs : List String
  stdout : String
  trace : List Step
  spawned : List (String × List String)

/-- Result of running a piece of the program: normal return, an
`Err` propagated out of `main` (carrying the `io::Error` message), or a
panic (from `.expect`).  Each carries the system state at that point. -/
inductive Outcome (α : Type) where
  | ok : α → Sys → Outcome α
  | fatal : String → Sys → Outcome α
  | panicked : String → Sys → Outcome α

/-- Behaviour of the external `ssh-keygen` invocation: the launch itself
fails, or the process runs and exits (with given success flag, captured
stderr text, and the contents it wrote to the private- and public-key
paths, `none` meaning the file was not written). -/
inductive KeygenBehavior where
  | launchFailure : KeygenBehavior
  | exits (success : Bool) (stderrText : String)
      (privContent pubContent : Option String) : KeygenBehavior

/-- Ambient environment of a run: the user's home directory, the line
available on standard input (`none` = read error), and the behaviour of
the external key generator. -/
structure Env where
  home : String
  stdinLine : Option String
  keygen : KeygenBehavior

/-- Rust `Path::exists`: some filesystem node is present at the path. -/
def pathExists (s : Sys) (p : String) : Bool :=
  s.dirs.contains p || (s.files p).isSome

/-- Split a character list on `/`, like `String.splitOn "/"`. -/
def splitSlash (l : List Char) : List (List Char) :=
  l.foldr (fun c acc =>
    if c = '/' then [] :: acc
    else
      match acc with
      | [] => [[c]]
      | seg :: rest => (c :: seg) :: rest) [[]]

/-- Join segments with `/` separators. -/
def joinSlash (segs : List (List Char)) : String :=
  String.mk (List.intercalate ['/'] segs)

/-- All ancestor paths of `p` (cumulative joins of its `/`-segments),
which `std::fs::create_dir_all` creates when missing. -/
def ancestorPaths (p : String) : List String :=
  (List.range (splitSlash p.data).length).map
    (fun i => joinSlash ((splitSlash p.data).take (i + 1)))

/-- `std::fs::create_dir_all`: the directory itself and every missing
ancestor come into existence. -/
def createDirAll (p : String) (dirs : List String) : List String :=
  p :: ancestorPaths p ++ dirs

/-- `fn ensure_ssh_directory_exists() -> io::Result<()>`
(src/main.rs lines 66-77). -/
def ensure_ssh_directory_exists (home : String) (s : Sys) : Outcome Unit :=
  let ssh_dir := tilde home SSH_DIR
  if pathExists s ssh_dir then
    Outcome.ok () s
  else
    Outcome.ok () { s with
      dirs := createDirAll ssh_dir s.dirs,
      stdout := s.stdout ++ "Created directory: ~/.ssh\n" }

/-- The argument list handed to `Command::new("ssh-keygen")`
(src/main.rs lines 92-102). -/
def keygenArgs (key_name expandedPath : String) : List String :=
  ["-t", "rsa", "-b", "4096", "-C", key_name, "-f", expandedPath, "-N", ""]

/-- Apply an optional file write to the file map. -/
def writeFileOpt (files : String → Option String) (p : String) :
    Option String → (String → Option String)
  | none => files
  | some c => fun q => if q = p then some c else files q

/-- `fn generate_ssh_key(key_name, private_key_path) -> io::Result<()>`
(src/main.rs lines 90-120).  `.output().expect("Failed to generate SSH key")`
panics on launch failure; a non-success exit prints the captured stderr to
standard output and returns `Err("SSH key generation failed")`. -/
def generate_ssh_key (home : String) (kb : KeygenBehavior)
    (key_name private_key_path : String) (s : Sys) : Outcome Unit :=
  let fpath := tilde home private_key_path
  let s := { s with
    spawned := s.spawned ++ [("ssh-keygen", keygenArgs key_name fpath)] }
  match kb with
  | KeygenBehavior.launchFailure =>
      Outcome.panicked "Failed to generate SSH key" s
  | KeygenBehavior.exits success stderrText privContent pubContent =>
      let files :=
        writeFileOpt (writeFileOpt s.files fpath privContent)
          (fpath ++ ".pub") pubContent
      let s := { s with files := files }
      if success then
        Outcome.ok () { s with
          stdout := s.stdout ++ "SSH key generated successfully.\n" }
      else
        Outcome.fatal "SSH key generation failed" { s with
          stdout := s.stdout ++ "Error generating SSH key: "
            ++ stderrText ++ "\n" }

/-- `fn append_public_key_to_authorized_keys(public_key_path) -> io::Result<()>`
(src/main.rs lines 131-149): read the public key file, open the
`authorized_keys` file with `.create(true).append(true)`, and append the
public key bytes.  Reading a missing file is the model's `Err` case. -/
def append_public_key_to_authorized_keys (home : String)
    (public_key_path : String) (s : Sys) : Outcome Unit :=
  let pubPath := tilde home public_key_path
  let akPath := tilde home AUTHORIZED_KEYS_PATH
  match s.files pubPath with
  | none => Outcome.fatal "No such file or directory (os error 2)" s
  | some public_key =>
      let existing := (s.files akPath).getD ""
      Outcome.ok () { s with
        files := fun q =>
          if q = akPath then some (existing ++ public_key) else s.files q,
        stdout := s.stdout ++ "Public key added to authorized_keys.\n" }

/-- `fn main() -> io::Result<()>` (src/main.rs lines 27-59).  Each `?` is
the explicit propagation of `fatal`/`panicked`; entering a pipeline step
appends its tag to the observation trace. -/
def main (env : Env) (s0 : Sys) : Outcome Unit :=
  let s := { s0 with
    stdout := s0.stdout
      ++ "Enter the name you want to use for the SSH key (default: github-actions):\n",
    trace := s0.trace ++ [Step.input] }
  match env.stdinLine with
  | none => Outcome.fatal "failed to read line from stdin" s
  | some line =>
    let key_name := resolveKeyName line
    match ensure_ssh_directory_exists env.home
        { s with trace := s.trace ++ [Step.dirAssurance] } with
    | Outcome.fatal m s => Outcome.fatal m s
    | Outcome.panicked m s => Outcome.panicked m s
    | Outcome.ok _ s =>
      match generate_ssh_key env.home env.keygen key_name
          (private_key_path key_name)
          { s with trace := s.trace ++ [Step.keyGeneration] } with
      | Outcome.fatal m s => Outcome.fatal m s
      | Outcome.panicked m s => Outcome.panicked m s
      | Outcome.ok _ s =>
        match append_public_key_to_authorized_keys env.home
            (public_key_path key_name)
            { s with trace := s.trace ++ [Step.enrollment] } with
        | Outcome.fatal m s => Outcome.fatal m s
        | Outcome.panicked m s => Outcome.panicked m s
        | Outcome.ok _ s =>
          let s := { s with trace := s.trace ++ [Step.disclosure] }
          match s.files (tilde env.home (private_key_path key_name)) with
          | none => Outcome.fatal "failed to read private key file" s
          | some private_key =>
            Outcome.ok () { s with
              stdout := s.stdout ++ "Private key to add to GitHub Secrets:\n"
                ++ private_key ++ "\n" }

/-- The system state carried by an outcome. -/
def finalSys : Outcome Unit → Sys
  | Outcome.ok _ s => s
  | Outcome.fatal _ s => s
  | Outcome.panicked _ s => s

/-- The abort message of a run, if it aborted. -/
def abortMsg : Outcome Unit → Option String
  | Outcome.ok _ _ => none
  | Outcome.fatal m _ => some m
  | Outcome.panicked m _ => some m

/-- Whether the run returned normally. -/
def isOk : Outcome Unit → Bool
  | Outcome.ok _ _ => true
  | _ => false

/-- Whether the run ended with a propagated `Err`. -/
def isFatal : Outcome Unit → Bool
  | Outcome.fatal _ _ => true
  | _ => false

/-- Whether the run ended in a panic. -/
def isPanic : Outcome Unit → Bool
  | Outcome.panicked _ _ => true
  | _ => false

/-- Process exit code, following the Rust runtime: `Ok` from `main` exits 0,
`Err` exits 1, a panic aborts with code 101. -/
def exitCode : Outcome Unit → Nat
  | Outcome.ok _ _ => 0
  | Outcome.fatal _ _ => 1
  | Outcome.panicked _ _ => 101

/-- Diagnostic text on the error stream, following the Rust runtime: the
`Err` value of `main` (or the panic message) is printed to stderr. -/
def stderrOut : Outcome Unit → String
  | Outcome.ok _ _ => ""
  | Outcome.fatal m _ => "Error: " ++ m ++ "\n"
  | Outcome.panicked m _ => "thread panicked: " ++ m ++ "\n"

/-- A convenient initial state: an `authorized_keys` file with content `c`
under home directory `home`, nothing else. -/
def initSys (home c : String) : Sys where
  files := fun p =>
    if p = tilde home AUTHORIZED_KEYS_PATH then some c else none
  dirs := []
  stdout := ""
  trace := []
  spawned := []

/-- The empty initial state: no files, no directories. -/
def emptySys : Sys where
  files := fun _ => none
  dirs := []
  stdout := ""
  trace := []
  spawned := []

/-- Normalise an absolute path: split on `/`, drop empty and `.` segments,
let `..` pop the previous segment.  Used to interpret where a path with
`..` segments actually lands. -/
def normalizePath (p : String) : String :=
  joinSlash ([] ::
    (((splitSlash p.data).filter (fun seg => seg != [] && seg != ['.'])).foldl
      (fun acc seg => if seg = ['.', '.'] then acc.dropLast else acc ++ [seg])
      []))

/-- Whether `needle` occurs contiguously inside `hay` (substring test on
character lists). -/
def containsSeq (needle hay : List Char) : Bool :=
  (List.range (hay.length + 1)).any
    (fun i => needle.isPrefixOf (hay.drop i))

/-! ## Helper lemmas -/

theorem mem_of_mem_dropWhile_forall {p : Char → Bool} {l : List Char}
    (h : ∀ a ∈ l.dropWhile p, p a = true) :
    ∀ a ∈ l, p a = true := by
  intro a ha
  rw [← List.takeWhile_append_dropWhile (p := p) (l := l)] at ha
  rcases List.mem_append.mp ha with h1 | h2
  · exact List.mem_takeWhile_imp h1
  · exact h a h2

theorem rustTrim_eq_empty_iff (s : String) :
    rustTrim s = "" ↔ s.data.all isRustWhitespace = true := by
  unfold rustTrim
  constructor
  · intro h
    have hdata : ((s.data.dropWhile isRustWhitespace).reverse.dropWhile
        isRustWhitespace).reverse = [] := congrArg String.data h
    rw [List.reverse_eq_nil_iff, List.dropWhile_eq_nil_iff] at hdata
    rw [List.all_eq_true]
    refine mem_of_mem_dropWhile_forall (fun a ha => ?_)
    exact hdata a (List.mem_reverse.mpr ha)
  · intro h
    rw [List.all_eq_true] at h
    have h1 : s.data.dropWhile isRustWhitespace = [] :=
      List.dropWhile_eq_nil_iff.mpr h
    rw [h1]
    rfl

/-! ## Claims -/

/-- C2: for every input line, the resolved key name is the fixed default
token `github-actions` when the line is empty or whitespace-only, and the
whitespace-trimmed input otherwise; in both cases it is non-empty. -/
theorem C2_resolved_key_name (input : String) :
    (input.data.all isRustWhitespace = true →
      resolveKeyName input = "github-actions") ∧
    (input.data.all isRustWhitespace = false →
      resolveKeyName input = rustTrim input) ∧
    resolveKeyName input ≠ "" := by
  refine ⟨?_, ?_, ?_⟩
  · intro h
    unfold resolveKeyName
    rw [if_pos ((rustTrim_eq_empty_iff input).mpr h)]
  · intro h
    unfold resolveKeyName
    refine if_neg (fun he => ?_)
    rw [(rustTrim_eq_empty_iff input).mp he] at h
    cases h
  · unfold resolveKeyName
    by_cases he : rustTrim input = ""
    · rw [if_pos he]
      decide
    · rw [if_neg he]
      exact he

/-- Witness for C2 at concrete inputs: a whitespace-only line resolves to
the default and a non-blank line resolves to its trim. -/
theorem C2_resolved_key_name_witness :
    resolveKeyName " \t\n" = "github-actions" ∧
    resolveKeyName "  key  " = rustTrim "  key  " :=
  ⟨(C2_resolved_key_name " \t\n").1 (by decide),
   (C2_resolved_key_name "  key  ").2.1 (by decide)⟩

/-- C9: the key-file paths are literal concatenations of the fixed prefix
and the key name with no sanitization; the trimmed, non-empty name
`../outside` yields private and public key paths that resolve outside the
`~/.ssh` configuration directory. -/
theorem C9_paths_unsanitized :
    (∀ name, private_key_path name = "~/.ssh/" ++ name ∧
      public_key_path name = private_key_path name ++ ".pub") ∧
    rustTrim "../outside" = "../outside" ∧
    "../outside" ≠ "" ∧
    normalizePath (tilde "/home/user" (private_key_path "../outside"))
      = "/home/user/outside" ∧
    List.isPrefixOf "/home/user/.ssh/".data
      (normalizePath (tilde "/home/user"
        (private_key_path "../outside"))).data = false ∧
    normalizePath (tilde "/home/user" (public_key_path "../outside"))
      = "/home/user/outside.pub" ∧
    List.isPrefixOf "/home/user/.ssh/".data
      (normalizePath (tilde "/home/user"
        (public_key_path "../outside"))).data = false := by
  exact ⟨fun name => ⟨rfl, rfl⟩, by decide, by decide, by decide, by decide,
    by decide, by decide⟩

/-- C10: a failure to launch the external process panics with the fixed
message `Failed to generate SSH key` instead of returning an error value;
the `Err` branch is taken exactly for a launched process with non-success
exit status, and a launched successful process returns `Ok`. -/
theorem C10_launch_failure_panics (home k p : String)
    (f : String → Option String) (d : List String) (o : String)
    (t : List Step) (sp : List (String × List String)) :
    (abortMsg (generate_ssh_key home KeygenBehavior.launchFailure k p
        ⟨f, d, o, t, sp⟩) = some "Failed to generate SSH key") ∧
    (isPanic (generate_ssh_key home KeygenBehavior.launchFailure k p
        ⟨f, d, o, t, sp⟩) = true) ∧
    (∀ (success : Bool) (st : String) (pc pb : Option String),
      isPanic (generate_ssh_key home (KeygenBehavior.exits success st pc pb)
          k p ⟨f, d, o, t, sp⟩) = false ∧
      isFatal (generate_ssh_key home (KeygenBehavior.exits success st pc pb)
          k p ⟨f, d, o, t, sp⟩) = !success ∧
      isOk (generate_ssh_key home (KeygenBehavior.exits success st pc pb)
          k p ⟨f, d, o, t, sp⟩) = success) := by
  refine ⟨rfl, rfl, fun success st pc pb => ?_⟩
  cases success <;> exact ⟨rfl, rfl, rfl⟩

/-- C1: enrollment appends the public-key bytes to the allow-list file:
with prior content `C` the file afterwards holds exactly `C ++ P`, with no
prior file it is created holding exactly `P`, and no other file changes. -/
theorem C1_enrollment_append_only (home pkRaw C P : String) (s : Sys)
    (hP : s.files (tilde home pkRaw) = some P) :
    (s.files (tilde home AUTHORIZED_KEYS_PATH) = some C →
      ∃ s', append_public_key_to_authorized_keys home pkRaw s
          = Outcome.ok () s' ∧
        s'.files (tilde home AUTHORIZED_KEYS_PATH) = some (C ++ P) ∧
        ∀ q, q ≠ tilde home AUTHORIZED_KEYS_PATH → s'.files q = s.files q) ∧
    (s.files (tilde home AUTHORIZED_KEYS_PATH) = none →
      ∃ s', append_public_key_to_authorized_keys home pkRaw s
          = Outcome.ok () s' ∧
        s'.files (tilde home AUTHORIZED_KEYS_PATH) = some P ∧
        ∀ q, q ≠ tilde home AUTHORIZED_KEYS_PATH → s'.files q = s.files q) := by
  simp only [append_public_key_to_authorized_keys, hP]
  constructor
  · intro hC
    refine ⟨_, rfl, ?_, fun q hq => ?_⟩
    · simp [hC]
    · simp [hq]
  · intro hC
    refine ⟨_, rfl, ?_, fun q hq => ?_⟩
    · simp [hC]
    · simp [hq]

/-- Witness for C1: appending `P1` to an absent allow-list file creates it
with exactly that content. -/
theorem C1_enrollment_append_only_witness :
    ∃ s', append_public_key_to_authorized_keys "/h" "~/.ssh/k.pub"
        ⟨fun p => if p = "/h/.ssh/k.pub" then some "P1" else none,
          [], "", [], []⟩ = Outcome.ok () s' ∧
      s'.files (tilde "/h" AUTHORIZED_KEYS_PATH) = some "P1" ∧
      ∀ q, q ≠ tilde "/h" AUTHORIZED_KEYS_PATH →
        s'.files q = (if q = "/h/.ssh/k.pub" then some "P1" else none) :=
  (C1_enrollment_append_only "/h" "~/.ssh/k.pub" "" "P1"
    ⟨fun p => if p = "/h/.ssh/k.pub" then some "P1" else none, [], "", [], []⟩
    (by rfl)).2 (by rfl)

/-- C3: whenever the external key generator exits with a non-success
status, the run aborts with the fatal error `SSH key generation failed`,
exits non-zero, the allow-list file keeps exactly its prior content (the
whole file map is untouched), and the enrollment step is never entered. -/
theorem C3_keygen_failure_leaves_allow_list (input C st : String) :
    isFatal (main ⟨"/home/user", some input,
        KeygenBehavior.exits false st none none⟩
      (initSys "/home/user" C)) = true ∧
    abortMsg (main ⟨"/home/user", some input,
        KeygenBehavior.exits false st none none⟩
      (initSys "/home/user" C)) = some "SSH key generation failed" ∧
    exitCode (main ⟨"/home/user", some input,
        KeygenBehavior.exits false st none none⟩
      (initSys "/home/user" C)) = 1 ∧
    (finalSys (main ⟨"/home/user", some input,
        KeygenBehavior.exits false st none none⟩
      (initSys "/home/user" C))).files
      = (initSys "/home/user" C).files ∧
    (finalSys (main ⟨"/home/user", some input,
        KeygenBehavior.exits false st none none⟩
      (initSys "/home/user" C))).files
        (tilde "/home/user" AUTHORIZED_KEYS_PATH) = some C ∧
    (finalSys (main ⟨"/home/user", some input,
        KeygenBehavior.exits false st none none⟩
      (initSys "/home/user" C))).trace
      = [Step.input, Step.dirAssurance, Step.keyGeneration] :=
  ⟨rfl, rfl, rfl, rfl, rfl, rfl⟩

set_option maxRecDepth 4000 in
/-- C4 counterexample: with the generator exiting non-zero after writing
`boom` to its error stream, the run's fatal error message is the fixed
`SSH key generation failed`, which does not contain `boom`; the captured
text appears only in a line printed to standard output, and the error
stream diagnostic does not contain it either. -/
theorem C4_counterexample_boom_not_in_error :
    abortMsg (main ⟨"/home/user", some "mykey\n",
        KeygenBehavior.exits false "boom" none none⟩
      (initSys "/home/user" "C0")) = some "SSH key generation failed" ∧
    containsSeq "boom".data "SSH key generation failed".data = false ∧
    containsSeq "boom".data (finalSys (main ⟨"/home/user", some "mykey\n",
        KeygenBehavior.exits false "boom" none none⟩
      (initSys "/home/user" "C0"))).stdout.data = true ∧
    stderrOut (main ⟨"/home/user", some "mykey\n",
        KeygenBehavior.exits false "boom" none none⟩
      (initSys "/home/user" "C0")) = "Error: SSH key generation failed\n" ∧
    containsSeq "boom".data (stderrOut (main ⟨"/home/user", some "mykey\n",
        KeygenBehavior.exits false "boom" none none⟩
      (initSys "/home/user" "C0"))).data = false := by
  refine ⟨rfl, by decide, by decide, rfl, by decide⟩

/-- C4 amended: every generator non-success exit makes the run exit
non-zero with the fixed diagnostic `Error: SSH key generation failed` on
the error stream, while the captured stderr text of the generator is
echoed in the `Error generating SSH key:` line on standard output. -/
theorem C4_failure_diagnostics (input C st : String) :
    exitCode (main ⟨"/home/user", some input,
        KeygenBehavior.exits false st none none⟩
      (initSys "/home/user" C)) = 1 ∧
    stderrOut (main ⟨"/home/user", some input,
        KeygenBehavior.exits false st none none⟩
      (initSys "/home/user" C)) = "Error: SSH key generation failed\n" ∧
    (finalSys (main ⟨"/home/user", some input,
        KeygenBehavior.exits false st none none⟩
      (initSys "/home/user" C))).stdout
      = "Enter the name you want to use for the SSH key (default: github-actions):\nCreated directory: ~/.ssh\nError generating SSH key: "
        ++ st ++ "\n" :=
  ⟨rfl, rfl, rfl⟩

/-- C6: directory assurance returns success and changes nothing when the
path already exists, creates the directory and all its ancestors when it
is absent, and a second consecutive invocation is the identity. -/
theorem C6_dir_assurance_idempotent (home : String) (s : Sys) :
    (pathExists s (tilde home SSH_DIR) = true →
      ensure_ssh_directory_exists home s = Outcome.ok () s) ∧
    (pathExists s (tilde home SSH_DIR) = false →
      ensure_ssh_directory_exists home s = Outcome.ok () { s with
        dirs := createDirAll (tilde home SSH_DIR) s.dirs,
        stdout := s.stdout ++ "Created directory: ~/.ssh\n" } ∧
      tilde home SSH_DIR ∈ createDirAll (tilde home SSH_DIR) s.dirs ∧
      (∀ a ∈ ancestorPaths (tilde home SSH_DIR),
        a ∈ createDirAll (tilde home SSH_DIR) s.dirs)) ∧
    ensure_ssh_directory_exists home
        (finalSys (ensure_ssh_directory_exists home s))
      = Outcome.ok () (finalSys (ensure_ssh_directory_exists home s)) := by
  refine ⟨fun h => ?_, fun h => ⟨?_, ?_, fun a ha => ?_⟩, ?_⟩
  · simp [ensure_ssh_directory_exists, h]
  · simp [ensure_ssh_directory_exists, h]
  · exact List.mem_cons_self _ _
  · exact List.mem_cons_of_mem _ (List.mem_append_left _ ha)
  · by_cases h : pathExists s (tilde home SSH_DIR) = true
    · simp [ensure_ssh_directory_exists, finalSys, h]
    · rw [Bool.not_eq_true] at h
      simp only [ensure_ssh_directory_exists, h]
      have h2 : pathExists { s with
          dirs := createDirAll (tilde home SSH_DIR) s.dirs,
          stdout := s.stdout ++ "Created directory: ~/.ssh\n" }
          (tilde home SSH_DIR) = true := by
        simp [pathExists, createDirAll, List.contains_cons]
      simp [finalSys, h2]

/-- Witness for C6: on the empty state the directory is absent, gets
created together with its ancestors, and the second invocation is the
identity. -/
theorem C6_dir_assurance_idempotent_witness :
    (ensure_ssh_directory_exists "/h" emptySys = Outcome.ok () { emptySys with
      dirs := createDirAll (tilde "/h" SSH_DIR) emptySys.dirs,
      stdout := emptySys.stdout ++ "Created directory: ~/.ssh\n" } ∧
    tilde "/h" SSH_DIR ∈ createDirAll (tilde "/h" SSH_DIR) emptySys.dirs ∧
    (∀ a ∈ ancestorPaths (tilde "/h" SSH_DIR),
      a ∈ createDirAll (tilde "/h" SSH_DIR) emptySys.dirs)) ∧
    ensure_ssh_directory_exists "/h"
        (finalSys (ensure_ssh_directory_exists "/h" emptySys))
      = Outcome.ok () (finalSys (ensure_ssh_directory_exists "/h" emptySys)) :=
  ⟨(C6_dir_assurance_idempotent "/h" emptySys).2.1 (by rfl),
   (C6_dir_assurance_idempotent "/h" emptySys).2.2⟩

theorem ensure_preserves (home : String) (s : Sys) :
    ∃ s', ensure_ssh_directory_exists home s = Outcome.ok () s' ∧
      s'.trace = s.trace ∧ s'.spawned = s.spawned := by
  simp only [ensure_ssh_directory_exists]
  by_cases h : pathExists s (tilde home SSH_DIR) = true
  · rw [if_pos h]
    exact ⟨s, rfl, rfl, rfl⟩
  · rw [if_neg h]
    exact ⟨_, rfl, rfl, rfl⟩

theorem generate_record (home : String) (kb : KeygenBehavior) (k p : String)
    (s : Sys) :
    (∃ s', generate_ssh_key home kb k p s = Outcome.ok () s' ∧
      s'.trace = s.trace ∧
      s'.spawned = s.spawned
        ++ [("ssh-keygen", keygenArgs k (tilde home p))]) ∨
    (∃ s', generate_ssh_key home kb k p s
        = Outcome.fatal "SSH key generation failed" s' ∧
      s'.trace = s.trace ∧
      s'.spawned = s.spawned
        ++ [("ssh-keygen", keygenArgs k (tilde home p))]) ∨
    (∃ s', generate_ssh_key home kb k p s
        = Outcome.panicked "Failed to generate SSH key" s' ∧
      s'.trace = s.trace ∧
      s'.spawned = s.spawned
        ++ [("ssh-keygen", keygenArgs k (tilde home p))]) := by
  cases kb with
  | launchFailure => exact Or.inr (Or.inr ⟨_, rfl, rfl, rfl⟩)
  | exits success st pc pb =>
    cases success
    · exact Or.inr (Or.inl ⟨_, rfl, rfl, rfl⟩)
    · exact Or.inl ⟨_, rfl, rfl, rfl⟩

theorem append_record (home p : String) (s : Sys) :
    (∃ s', append_public_key_to_authorized_keys home p s
        = Outcome.ok () s' ∧
      s'.trace = s.trace ∧ s'.spawned = s.spawned) ∨
    (∃ m s', append_public_key_to_authorized_keys home p s
        = Outcome.fatal m s' ∧
      s'.trace = s.trace ∧ s'.spawned = s.spawned) := by
  simp only [append_public_key_to_authorized_keys]
  cases h : s.files (tilde home p) with
  | none => exact Or.inr ⟨_, _, rfl, rfl, rfl⟩
  | some pk => exact Or.inl ⟨_, rfl, rfl, rfl⟩

theorem main_observation (home line : String) (kb : KeygenBehavior)
    (f : String → Option String) (d : List String) (o : String)
    (sp : List (String × List String)) :
    (finalSys (main ⟨home, some line, kb⟩ ⟨f, d, o, [], sp⟩)).spawned
      = sp ++ [("ssh-keygen", keygenArgs (resolveKeyName line)
          (tilde home (private_key_path (resolveKeyName line))))] ∧
    List.isPrefixOf
      (finalSys (main ⟨home, some line, kb⟩ ⟨f, d, o, [], sp⟩)).trace
      [Step.input, Step.dirAssurance, Step.keyGeneration, Step.enrollment,
        Step.disclosure] = true := by
  unfold main
  dsimp only
  obtain ⟨s1, he, ht1, hsp1⟩ := ensure_preserves home _
  rw [he]
  dsimp only
  rcases generate_record home kb (resolveKeyName line)
      (private_key_path (resolveKeyName line))
      { s1 with trace := s1.trace ++ [Step.keyGeneration] } with
    ⟨s2, hg, ht2, hsp2⟩ | ⟨s2, hg, ht2, hsp2⟩ | ⟨s2, hg, ht2, hsp2⟩
  · rw [hg]
    dsimp only
    rcases append_record home
        (public_key_path (resolveKeyName line))
        { s2 with trace := s2.trace ++ [Step.enrollment] } with
      ⟨s3, ha, ht3, hsp3⟩ | ⟨m, s3, ha, ht3, hsp3⟩
    · rw [ha]
      dsimp only
      cases hf : s3.files (tilde home
          (private_key_path (resolveKeyName line))) with
      | none =>
        refine ⟨?_, ?_⟩
        · simp only [finalSys, hsp3, hsp2, hsp1]
        · simp only [finalSys, ht3, ht2, ht1]
          decide
      | some pk =>
        refine ⟨?_, ?_⟩
        · simp only [finalSys, hsp3, hsp2, hsp1]
        · simp only [finalSys, ht3, ht2, ht1]
          decide
    · rw [ha]
      refine ⟨?_, ?_⟩
      · simp only [finalSys, hsp3, hsp2, hsp1]
      · simp only [finalSys, ht3, ht2, ht1]
        decide
  · rw [hg]
    refine ⟨?_, ?_⟩
    · simp only [finalSys, hsp2, hsp1]
    · simp only [finalSys, ht2, ht1]
      decide
  · rw [hg]
    refine ⟨?_, ?_⟩
    · simp only [finalSys, hsp2, hsp1]
    · simp only [finalSys, ht2, ht1]
      decide

/-- C5: the run is the strictly ordered pipeline Input → DirectoryAssurance
→ KeyGeneration → Enrollment → Disclosure: the executed steps of any run
form a prefix of that sequence (so a step runs only after all earlier ones
and a failure stops every later one); in particular, when enrollment fails
(public key file unreadable) the run aborts and disclosure never runs. -/
theorem C5_pipeline_order (env : Env) (f : String → Option String)
    (d : List String) (o : String) (sp : List (String × List String)) :
    List.isPrefixOf (finalSys (main env ⟨f, d, o, [], sp⟩)).trace
      [Step.input, Step.dirAssurance, Step.keyGeneration, Step.enrollment,
        Step.disclosure] = true ∧
    isFatal (main ⟨"/home/user", some "mykey\n",
        KeygenBehavior.exits true "" (some "PRIV") none⟩ emptySys) = true ∧
    (finalSys (main ⟨"/home/user", some "mykey\n",
        KeygenBehavior.exits true "" (some "PRIV") none⟩ emptySys)).trace
      = [Step.input, Step.dirAssurance, Step.keyGeneration,
          Step.enrollment] := by
  refine ⟨?_, rfl, rfl⟩
  obtain ⟨home, stdin, kb⟩ := env
  cases stdin with
  | none => rfl
  | some line => exact (main_observation home line kb f d o sp).2

/-- C7: the external command is always spawned as `ssh-keygen` with
exactly the fixed argument list: RSA, 4096 bits, the resolved key name as
comment, the home-expanded `~/.ssh/<key-name>` output path, and an empty
passphrase; the public key path is the private key path with `.pub`
appended. -/
theorem C7_keygen_invocation (home input : String) (kb : KeygenBehavior)
    (f : String → Option String) (d : List String) (o : String)
    (sp : List (String × List String)) :
    (finalSys (main ⟨home, some input, kb⟩ ⟨f, d, o, [], sp⟩)).spawned
      = sp ++ [("ssh-keygen",
          ["-t", "rsa", "-b", "4096", "-C", resolveKeyName input, "-f",
            tilde home (private_key_path (resolveKeyName input)),
            "-N", ""])] ∧
    (∀ name, public_key_path name = private_key_path name ++ ".pub") :=
  ⟨(main_observation home input kb f d o sp).1, fun _ => rfl⟩

set_option maxRecDepth 8000 in
/-- C8 counterexample: on a successful run whose generator wrote exactly
`PRIV` to the private key file, the standard output does not end with the
label followed by `PRIV`: `println!` appends one extra newline, so it ends
with the label followed by `PRIV` and a newline. -/
theorem C8_counterexample_trailing_newline :
    isOk (main ⟨"/home/user", some "mykey\n",
        KeygenBehavior.exits true "" (some "PRIV") (some "PUB")⟩
      (initSys "/home/user" "C0")) = true ∧
    List.isSuffixOf "Private key to add to GitHub Secrets:\nPRIV".data
      (finalSys (main ⟨"/home/user", some "mykey\n",
          KeygenBehavior.exits true "" (some "PRIV") (some "PUB")⟩
        (initSys "/home/user" "C0"))).stdout.data = false ∧
    List.isSuffixOf "Private key to add to GitHub Secrets:\nPRIV\n".data
      (finalSys (main ⟨"/home/user", some "mykey\n",
          KeygenBehavior.exits true "" (some "PRIV") (some "PUB")⟩
        (initSys "/home/user" "C0"))).stdout.data = true := by
  refine ⟨rfl, by decide, by decide⟩

/-- C8 amended: on a successful run, disclosure writes to standard output
the fixed label `Private key to add to GitHub Secrets:` and a newline,
then the exact bytes the generator wrote to the private-key file, then one
trailing newline added by `println!`. -/
theorem C8_disclosure_output (C P PB st : String) :
    isOk (main ⟨"/home/user", some "mykey\n",
        KeygenBehavior.exits true st (some P) (some PB)⟩
      (initSys "/home/user" C)) = true ∧
    (finalSys (main ⟨"/home/user", some "mykey\n",
        KeygenBehavior.exits true st (some P) (some PB)⟩
      (initSys "/home/user" C))).stdout
      = "Enter the name you want to use for the SSH key (default: github-actions):\nCreated directory: ~/.ssh\nSSH key generated successfully.\nPublic key added to authorized_keys.\nPrivate key to add to GitHub Secrets:\n"
        ++ P ++ "\n" :=
  ⟨rfl, rfl⟩

end SshSetup
